import Mathlib

/-!
Shallow embedding of `pushprocessor.go` (package `main` of uniqush-push):
the push dispatch core.  Pure data is modelled by Lean structures; the
side effects of the Go code (responding to the caller, persisting
credentials, sending on the backend channel, spawning a retry goroutine,
recycling the notification) are modelled as an explicit trace of events,
produced in the program order of the Go source.  External collaborators
(the push-service manager's `Push`, the database lookup) are parameters.
Timestamps, the `PreviousTry` back-reference and the logging calls are not
modelled: no claim mentions them.
-/

/-- A push service provider, identified by its name (`psp.Name()` in Go). -/
structure PushServiceProvider where
  name : String
deriving DecidableEq, Repr

/-- A delivery point (device endpoint), identified by its name (`dp.Name()`). -/
structure DeliveryPoint where
  name : String
deriving DecidableEq, Repr

/-- A notification payload; the tag stands for object identity, which is all
the recycle bookkeeping needs. -/
structure Notification where
  tag : Nat
deriving DecidableEq, Repr

/-- Errors returned by `psm.Push`, mirroring the Go error taxonomy:
`*RefreshDataError` (with optional refreshed provider, refreshed delivery
point, and wrapped `OtherError`), `*RetryError` (with its `RetryAfter`
field), `*UnregisteredError`, and any other error (kept as a message). -/
inductive PushError where
  | refreshData (psp : Option PushServiceProvider) (dp : Option DeliveryPoint)
      (otherError : Option PushError)
  | retry (retryAfter : Int)
  | unregistered
  | other (msg : String)

/-- Action codes. Modelled from the spec: `ACTION_PUSH` and
`ACTION_UNSUBSCRIBE` are constants of the external `pushsys` package, not
part of `src/`; only their distinctness matters here. -/
def ACTION_PUSH : Nat := 0

/-- Action code for unsubscribe requests (see `ACTION_PUSH`). -/
def ACTION_UNSUBSCRIBE : Nat := 1

/-- The `Request` struct, restricted to the fields `pushprocessor.go`
reads or writes.  Go nil pointers become `none`. -/
structure Request where
  id : String
  action : Nat
  senderAddr : String
  service : String
  subscribers : List String
  psp : Option PushServiceProvider
  dp : Option DeliveryPoint
  notification : Option Notification
  nrRetries : Nat
  backoffTime : Int
deriving DecidableEq, Repr

/-- The `PushProcessor` configuration fields used by the claims. -/
structure PushProcessor where
  max_nr_gorountines : Nat
  max_nr_retry : Nat
deriving DecidableEq, Repr

/-- Matches `const init_backoff_time = 3`. -/
def init_backoff_time : Int := 3

/-- The configuration installed by `NewPushProcessor`: worker cap 1024,
retry cap 3. -/
def NewPushProcessor : PushProcessor :=
  { max_nr_gorountines := 1024, max_nr_retry := 3 }

/-- Errors sent to the caller via `req.Respond`. -/
inductive RespondError where
  | storage (msg : String)
  | noDevice (subscriber : String)
  | retryNotice (pspName subscriber dpName : String)
  | pushErr (e : PushError)

/-- One observable side effect of the dispatch core, in program order:
`attemptMark` marks the `psm.Push` call, `respond` a `req.Respond` call,
`persistPSP`/`persistDP` the database writes of `refreshData`, `enqueue` a
send on `backendch`, `scheduleRetry` the `go p.retryRequest(...)` spawn
(with the arguments passed to it), `succ` the `pushSucc` log point,
`recycle` the `recycle` call on the notification, `finish` the deferred
`req.Finish()`. -/
inductive Event where
  | attemptMark (subscriber : String) (psp : PushServiceProvider) (dp : DeliveryPoint)
  | respond (e : RespondError)
  | persistPSP (psp : PushServiceProvider)
  | persistDP (dp : DeliveryPoint)
  | enqueue (r : Request)
  | scheduleRetry (req : Request) (retryAfter : Int) (subscriber : String)
      (psp : PushServiceProvider) (dp : DeliveryPoint)
  | succ (id : String)
  | recycle (n : Option Notification)
  | finish

/-- The result of `p.psm.Push(psp, dp, n)`: a message id together with an
optional error, exactly as the Go call returns both values. -/
abbrev PushFn :=
  PushServiceProvider → DeliveryPoint → Option Notification → String × Option PushError

/-- The result of `p.dbfront.GetPushServiceProviderDeliveryPointPairs`:
a pair list together with an optional error message. -/
structure PSPDPPair where
  psp : PushServiceProvider
  dp : DeliveryPoint
deriving DecidableEq, Repr

/-- Database lookup collaborator, keyed by service and subscriber. -/
abbrev LookupFn := String → String → List PSPDPPair × Option String

/-- Embeds `retryRequest` (lines 42-79).  Returns `none` when the retry
budget is exhausted (the Go function returns without doing anything), else
`some (waitTime, newreq)`: the goroutine sleeps `waitTime` seconds and then
sends `newreq` on `backendch`.  `req.backoffTime << 1` is written `* 2`;
no claim reaches values where 64-bit overflow could differ. -/
def retryRequest (p : PushProcessor) (req : Request) (retryAfter : Int)
    (subscriber : String) (psp : PushServiceProvider) (dp : DeliveryPoint) :
    Option (Int × Request) :=
  if req.nrRetries ≥ p.max_nr_retry then none
  else
    let backoff : Int :=
      if req.nrRetries == 0 || req.backoffTime == 0 then init_backoff_time
      else req.backoffTime * 2
    let newreq : Request :=
      { nrRetries := req.nrRetries + 1
        id := req.id
        action := ACTION_PUSH
        psp := some psp
        dp := some dp
        senderAddr := req.senderAddr
        notification := req.notification
        service := req.service
        subscribers := [subscriber]
        backoffTime := backoff }
    let waitTime : Int := if retryAfter > 0 then retryAfter else backoff
    some (waitTime, newreq)

/-- Embeds `unsubscribe` (lines 95-108): the request built with
`new(Request)` and sent on `backendch`; unset pointer fields are `none`,
unset numeric fields are zero, as Go zero-initialises them. -/
def unsubscribe (req : Request) (subscriber : String) (dp : DeliveryPoint) : Request :=
  { id := req.id
    action := ACTION_UNSUBSCRIBE
    senderAddr := req.senderAddr
    service := req.service
    subscribers := [subscriber]
    psp := none
    dp := some dp
    notification := none
    nrRetries := 0
    backoffTime := 0 }

/-- Embeds `refreshData` (lines 184-198): persists whichever of the
refreshed provider / delivery point is present, and returns
`re.OtherError`.  The Go parameters `req` and `stype` only feed log lines
and are dropped. -/
def refreshData (re_psp : Option PushServiceProvider) (re_dp : Option DeliveryPoint)
    (re_other : Option PushError) : List Event × Option PushError :=
  ((match re_psp with
    | some q => [Event.persistPSP q]
    | none => []) ++
   (match re_dp with
    | some d => [Event.persistDP d]
    | none => []),
   re_other)

/-- Embeds `pushSucc` (lines 236-245): the success log line, then
`recycle(psp, dp, req.Notification)`, which only recycles the
notification. -/
def pushSucc (req : Request) (id : String) : List Event :=
  [Event.succ id, Event.recycle req.notification]

/-- Embeds `pushFail` (lines 211-223): the error log lines, then
`recycle`. -/
def pushFail (req : Request) : List Event :=
  [Event.recycle req.notification]

/-- Embeds `pushRetry` (lines 225-234): spawns `go p.retryRequest(req,
err.RetryAfter, subscriber, psp, dp)`. -/
def pushRetry (req : Request) (retryAfter : Int) (subscriber : String)
    (psp : PushServiceProvider) (dp : DeliveryPoint) : List Event :=
  [Event.scheduleRetry req retryAfter subscriber psp dp]

/-- Embeds `pushToDeliveryPoint` (lines 110-144).  The first `switch`
handles only `*RefreshDataError` (its persists happen there, and `err` is
replaced by `re.OtherError`); a cleared error takes the success path with
the id returned by the failed `Push` call.  The second `switch` handles
`*RetryError` and `*UnregisteredError`; every other remaining error falls
through to `Respond` + `pushFail`. -/
def pushToDeliveryPoint (pushFn : PushFn) (req : Request) (subscriber : String)
    (psp : PushServiceProvider) (dp : DeliveryPoint) : List Event :=
  Event.attemptMark subscriber psp dp ::
    (let res := pushFn psp dp req.notification
     match res.2 with
     | none => pushSucc req res.1
     | some e0 =>
       let handled : List Event × Option PushError :=
         match e0 with
         | PushError.refreshData opsp odp other => refreshData opsp odp other
         | e => ([], some e)
       match handled.2 with
       | none => handled.1 ++ pushSucc req res.1
       | some e =>
         match e with
         | PushError.retry retryAfter =>
           handled.1 ++
             [Event.respond (RespondError.retryNotice psp.name subscriber dp.name)] ++
             pushRetry req retryAfter subscriber psp dp
         | PushError.unregistered =>
           handled.1 ++
             [Event.respond (RespondError.pushErr PushError.unregistered)] ++
             [Event.enqueue (unsubscribe req subscriber dp)]
         | e =>
           handled.1 ++ [Event.respond (RespondError.pushErr e)] ++ pushFail req)

/-- Embeds the pair loop of `push` (lines 166-181): iterate the pairs in
order; skip a pair whose delivery-point name already occurs in
`chked_dps` (the Go inner loop sets `pushit = false` exactly when such a
match exists), otherwise attempt it and append its name. -/
def pushLoop (pushFn : PushFn) (req : Request) (subscriber : String) :
    List PSPDPPair → List String → List Event
  | [], _ => []
  | pr :: rest, chked_dps =>
    if pr.dp.name ∈ chked_dps then
      pushLoop pushFn req subscriber rest chked_dps
    else
      pushToDeliveryPoint pushFn req subscriber pr.psp pr.dp ++
        pushLoop pushFn req subscriber rest (chked_dps ++ [pr.dp.name])

/-- Embeds `push` (lines 146-182) for one subscriber: a lookup error is
responded but does not return; an empty pair list responds the NoDevice
error and returns; otherwise the dedup loop runs. -/
def push (pushFn : PushFn) (lookup : LookupFn) (req : Request)
    (subscriber : String) : List Event :=
  let res := lookup req.service subscriber
  (match res.2 with
   | some e => [Event.respond (RespondError.storage e)]
   | none => []) ++
  (if res.1.length ≤ 0 then [Event.respond (RespondError.noDevice subscriber)]
   else pushLoop pushFn req subscriber res.1 [])

/-- Embeds `pushBulk` (lines 247-256): its batch's subscribers, processed
sequentially. -/
def pushBulk (pushFn : PushFn) (lookup : LookupFn) (req : Request)
    (subscribers : List String) : List Event :=
  (subscribers.map (push pushFn lookup req)).flatten

/-- Embeds the batching `for` loop of `Process` (lines 287-290): starting
at `pos`, while `pos < stop`, emit the slice
`req.Subscribers[pos : pos+q]` and advance `pos` by `q`; also returns the
final value of `pos`.  The guard `0 < q` is required for termination; on
the batched path `q = len/cap ≥ 1` because `len > cap`. -/
def goBatchLoop (subs : List String) (q stop pos : Nat) :
    List (List String) × Nat :=
  if _h : 0 < q ∧ pos < stop then
    let rest := goBatchLoop subs q stop (pos + q)
    ((subs.drop pos).take q :: rest.1, rest.2)
  else ([], pos)
termination_by stop - pos
decreasing_by omega

/-- The batch list built by the batched path of `Process` (lines 283-294):
`q = len/cap` batches of size `q` while `pos < len - len%cap`, then the
trailing slice `req.Subscribers[pos:]` when `pos < len`. -/
def processBatchList (subs : List String) (cap : Nat) : List (List String) :=
  let nr_subs_per_goroutine := subs.length / cap
  let nr_subs_last_goroutine := subs.length % cap
  let res := goBatchLoop subs nr_subs_per_goroutine
    (subs.length - nr_subs_last_goroutine) 0
  if res.2 < subs.length then res.1 ++ [subs.drop res.2] else res.1

/-- Embeds `Process` (lines 259-296).  `defer req.Finish()` puts `finish`
at the end of the trace on every path.  Path choice in Go order: the
direct path when there is exactly one subscriber and both a provider and a
delivery point are set; one worker per subscriber when the count is within
`max_nr_gorountines`; otherwise the batched path.  Worker traces are
linearised in spawn order; every claim proved below is insensitive to the
interleaving. -/
def Process (p : PushProcessor) (pushFn : PushFn) (lookup : LookupFn)
    (req : Request) : List Event :=
  (match req.subscribers, req.psp, req.dp with
   | [s], some psp, some dp => pushToDeliveryPoint pushFn req s psp dp
   | _, _, _ =>
     if req.subscribers.length ≤ p.max_nr_gorountines then
       (req.subscribers.map (push pushFn lookup req)).flatten
     else
       ((processBatchList req.subscribers p.max_nr_gorountines).map
         (pushBulk pushFn lookup req)).flatten) ++
  [Event.finish]

/-- Recognises `respond` events. -/
def isRespondB : Event → Bool
  | Event.respond _ => true
  | _ => false

/-- Recognises the credential-persist events of `refreshData`. -/
def isPersistB : Event → Bool
  | Event.persistPSP _ => true
  | Event.persistDP _ => true
  | _ => false

/-- Recognises retry-goroutine spawns. -/
def isScheduleRetryB : Event → Bool
  | Event.scheduleRetry _ _ _ _ _ => true
  | _ => false

/-- Recognises sends on the backend channel. -/
def isEnqueueB : Event → Bool
  | Event.enqueue _ => true
  | _ => false

/-- Recognises notification recycles. -/
def isRecycleB : Event → Bool
  | Event.recycle _ => true
  | _ => false

/-- Recognises the deferred finalisation. -/
def isFinishB : Event → Bool
  | Event.finish => true
  | _ => false

/-- Extracts the request sent by an `enqueue` event. -/
def enqueuedOf : Event → Option Request
  | Event.enqueue r => some r
  | _ => none

/-- Extracts the (provider, delivery point) of an `attemptMark` event. -/
def attemptOf : Event → Option PSPDPPair
  | Event.attemptMark _ psp dp => some (PSPDPPair.mk psp dp)
  | _ => none

/-- The sequence of delivery attempts recorded in a trace. -/
def attemptsOf (tr : List Event) : List PSPDPPair :=
  tr.filterMap attemptOf

/-- Holds (as `true`) when every `scheduleRetry` or `enqueue` event in the
trace is preceded by some `respond` event; `seen` records whether a
`respond` has occurred already. -/
def asyncRecoveryPreceded (seen : Bool) : List Event → Bool
  | [] => true
  | e :: rest =>
    if isScheduleRetryB e || isEnqueueB e then
      seen && asyncRecoveryPreceded seen rest
    else
      asyncRecoveryPreceded (seen || isRespondB e) rest

/-- Holds (as `true`) when every recovery side effect — credential
persist, retry spawn, or channel enqueue — in the trace is preceded by
some `respond` event.  This is the ordering the claim C2 states. -/
def recoveryPreceded (seen : Bool) : List Event → Bool
  | [] => true
  | e :: rest =>
    if isPersistB e || isScheduleRetryB e || isEnqueueB e then
      seen && recoveryPreceded seen rest
    else
      recoveryPreceded (seen || isRespondB e) rest

/-- Holds (as `true`) when no `respond` event precedes any credential
persist: the persists of `refreshData` happen during classification,
before any error is reported. -/
def persistsFirst (noRespondYet : Bool) : List Event → Bool
  | [] => true
  | e :: rest =>
    if isPersistB e then noRespondYet && persistsFirst noRespondYet rest
    else if isRespondB e then persistsFirst false rest
    else persistsFirst noRespondYet rest

/-- The error `pushToDeliveryPoint` acts on after the first `switch`:
a `*RefreshDataError` is replaced by its `OtherError`, anything else is
kept. -/
def unwrapRefresh : PushError → Option PushError
  | PushError.refreshData _ _ other => other
  | e => some e

/-- How many times the attempt recycles the notification, as a function of
the `Push` result: once on success (also when a credential refresh clears
the error) and on an unclassified failure, never on a retryable failure
(the retry is still pending) and never on an unregistered target. -/
def recycleSpec (res : String × Option PushError) : Nat :=
  match res.2 with
  | none => 1
  | some e0 =>
    match unwrapRefresh e0 with
    | none => 1
    | some (PushError.retry _) => 0
    | some PushError.unregistered => 0
    | some _ => 1

/-- The request `retryRequest` constructs from a base request, spelled out:
same id, sender, service and notification, `ACTION_PUSH`, the single
subscriber, the resolved pair, and the new retry count / backoff. -/
def retriedReq (req : Request) (s : String) (psp : PushServiceProvider)
    (dp : DeliveryPoint) (n : Nat) (b : Int) : Request :=
  { id := req.id, action := ACTION_PUSH, senderAddr := req.senderAddr,
    service := req.service, subscribers := [s], psp := some psp, dp := some dp,
    notification := req.notification, nrRetries := n, backoffTime := b }

/-- The backoff `retryRequest` computes for the new request: the initial
backoff on a first retry or a zero stored backoff, else double the stored
backoff. -/
def backoffOf (req : Request) : Int :=
  if req.nrRetries == 0 || req.backoffTime == 0 then init_backoff_time
  else req.backoffTime * 2

/-- Spec-side definition, following the words of claim C6: iterate the
pairs in returned order, skipping a pair whose delivery-target identity
equals that of an earlier pair (recorded in `seen`), keeping each other
pair for a delivery attempt. -/
def specDedupTargets (seen : List String) : List PSPDPPair → List PSPDPPair
  | [] => []
  | pr :: rest =>
    if pr.dp.name ∈ seen then specDedupTargets seen rest
    else pr :: specDedupTargets (pr.dp.name :: seen) rest

/-- Concrete provider used by the closed instances below. -/
def psp0 : PushServiceProvider := ⟨"P0"⟩

/-- A second concrete provider. -/
def psp1 : PushServiceProvider := ⟨"P1"⟩

/-- Concrete delivery point with identity A. -/
def dpA : DeliveryPoint := ⟨"A"⟩

/-- Concrete delivery point with identity B. -/
def dpB : DeliveryPoint := ⟨"B"⟩

/-- Concrete delivery point with identity C. -/
def dpC : DeliveryPoint := ⟨"C"⟩

/-- Concrete notification payload. -/
def n0 : Notification := ⟨0⟩

/-- A concrete fresh fan-out request (retry count and backoff zero, as Go
zero-initialises them on a new request). -/
def req0 : Request :=
  { id := "r1", action := ACTION_PUSH, senderAddr := "addr", service := "svc",
    subscribers := ["s1"], psp := some psp0, dp := some dpA,
    notification := some n0, nrRetries := 0, backoffTime := 0 }

/-- A backend whose push fails with a credential-refresh error wrapping a
retryable error. -/
def pushFnRefreshRetry : PushFn :=
  fun _ _ _ =>
    ("", some (PushError.refreshData (some psp0) none (some (PushError.retry 0))))

/-- A backend whose push fails with an unregistered-target error. -/
def pushFnUnregistered : PushFn :=
  fun _ _ _ => ("", some PushError.unregistered)

/-- A backend whose push fails with a credential-refresh error carrying
refreshed data for both provider and target and no remaining error. -/
def pushFnRefreshClear : PushFn :=
  fun _ _ _ => ("id9", some (PushError.refreshData (some psp0) (some dpA) none))

/-- A backend whose push always succeeds. -/
def pushFnOk : PushFn := fun _ _ _ => ("ok", none)

/-- A lookup resolving every subscriber to pairs with delivery-target
identities A, B, A, C (the third pair reaches identity A through a
different provider). -/
def lookupABAC : LookupFn :=
  fun _ _ =>
    ([⟨psp0, dpA⟩, ⟨psp0, dpB⟩, ⟨psp1, dpA⟩, ⟨psp0, dpC⟩], none)

/-- A lookup failing with a storage error and an empty pair list. -/
def lookupEmptyErr : LookupFn := fun _ _ => ([], some "dberr")

theorem goBatchLoop_spec (subs : List String) (q : Nat) (hq : 0 < q) :
    ∀ (k pos : Nat),
      (goBatchLoop subs q (pos + q * k) pos).1.length = k ∧
      (goBatchLoop subs q (pos + q * k) pos).2 = pos + q * k ∧
      (goBatchLoop subs q (pos + q * k) pos).1.flatten =
        (subs.drop pos).take (q * k) := by
  intro k
  induction k with
  | zero =>
    intro pos
    rw [goBatchLoop]
    simp
  | succ k ih =>
    intro pos
    rw [goBatchLoop]
    have hlt : pos < pos + q * (k + 1) := by
      have : 0 < q * (k + 1) := Nat.mul_pos hq (Nat.succ_pos k)
      omega
    rw [dif_pos ⟨hq, hlt⟩]
    have harg : pos + q * (k + 1) = (pos + q) + q * k := by ring
    have h2 := ih (pos + q)
    rw [harg]
    refine ⟨by simpa using h2.1, by simpa using h2.2.1, ?_⟩
    simp only [List.flatten_cons]
    rw [h2.2.2]
    have : q * (k + 1) = q + q * k := by ring
    rw [this, List.take_add, List.drop_drop]

theorem processBatchList_spec (subs : List String) (cap : Nat) (hcap : 0 < cap)
    (h : cap < subs.length) :
    (processBatchList subs cap).length =
      cap + (if subs.length % cap = 0 then 0 else 1) ∧
    (processBatchList subs cap).flatten = subs := by
  have hq : 0 < subs.length / cap := Nat.div_pos (Nat.le_of_lt h) hcap
  have hdm := Nat.div_add_mod subs.length cap
  have key : subs.length / cap * cap + subs.length % cap = subs.length := by
    rw [Nat.mul_comm]; exact hdm
  have hstop : subs.length - subs.length % cap = subs.length / cap * cap := by
    omega
  obtain ⟨hlen, hpos, hflat⟩ := goBatchLoop_spec subs (subs.length / cap) hq cap 0
  simp only [Nat.zero_add] at hlen hpos hflat
  unfold processBatchList
  simp only []
  rw [hstop, hpos]
  by_cases hr : subs.length % cap = 0
  · have hn : ¬ (subs.length / cap * cap < subs.length) := by omega
    rw [if_neg hn, if_pos hr]
    refine ⟨by simpa using hlen, ?_⟩
    rw [hflat]
    have hfull : subs.length / cap * cap = subs.length := by omega
    simp [hfull]
  · have hy : subs.length / cap * cap < subs.length := by omega
    rw [if_pos hy, if_neg hr]
    constructor
    · simp [hlen]
    · rw [List.flatten_append, hflat]
      simp [List.take_append_drop]

/-- C1 (amended): when the subscriber count N exceeds the worker cap, the
batched path of `Process` partitions the subscribers into `cap` contiguous
batches of ⌊N/cap⌋ subscribers each, plus one additional trailing batch of
N mod cap subscribers when cap does not divide N (so cap+1 batches in
total in that case, not cap); the batches concatenate back to the
subscriber list, so the total number of subscribers processed equals N. -/
theorem c1_batch_partition (subs : List String) (cap : Nat) (hcap : 0 < cap)
    (h : cap < subs.length) :
    (processBatchList subs cap).length =
      cap + (if subs.length % cap = 0 then 0 else 1) ∧
    (processBatchList subs cap).flatten = subs ∧
    ((processBatchList subs cap).map List.length).sum = subs.length := by
  obtain ⟨h1, h2⟩ := processBatchList_spec subs cap hcap h
  refine ⟨h1, h2, ?_⟩
  rw [← List.length_flatten, h2]

/-- C1 counterexample: with the constructed cap 1024 and 1025 subscribers,
`Process` creates 1025 batches, not the 1024 the claim states. -/
theorem c1_counterexample :
    (processBatchList (List.replicate 1025 "s") 1024).length = 1025 ∧
    ¬ (processBatchList (List.replicate 1025 "s") 1024).length = 1024 := by
  obtain ⟨h1, _⟩ := processBatchList_spec (List.replicate 1025 "s") 1024
    (by norm_num) (by rw [List.length_replicate]; norm_num)
  simp only [List.length_replicate] at h1
  norm_num at h1
  exact ⟨h1, by omega⟩

/-- C1 witness: the amended statement at cap 2 with three subscribers. -/
theorem c1_witness :
    0 < 2 ∧ 2 < (["a", "b", "c"] : List String).length ∧
    ((processBatchList ["a", "b", "c"] 2).length =
      2 + (if (["a", "b", "c"] : List String).length % 2 = 0 then 0 else 1) ∧
    (processBatchList ["a", "b", "c"] 2).flatten = ["a", "b", "c"] ∧
    ((processBatchList ["a", "b", "c"] 2).map List.length).sum =
      (["a", "b", "c"] : List String).length) :=
  ⟨by decide, by decide, c1_batch_partition ["a", "b", "c"] 2 (by decide) (by decide)⟩

/-- C4: starting a delivery chain at retry count 0 with the constructed
configuration (retry cap 3, initial backoff 3s) and no backend-suggested
delay, the successive retry waits are 3s, 6s and 12s (the first retry uses
the initial backoff and each later retry doubles the stored backoff), and
a fourth retryable failure (retry count 3) issues no further retry. -/
theorem c4_backoff_chain (req : Request) (s : String) (psp : PushServiceProvider)
    (dp : DeliveryPoint) (h0 : req.nrRetries = 0) (h1 : req.backoffTime = 0) :
    retryRequest NewPushProcessor req 0 s psp dp =
      some (3, retriedReq req s psp dp 1 3) ∧
    retryRequest NewPushProcessor (retriedReq req s psp dp 1 3) 0 s psp dp =
      some (6, retriedReq req s psp dp 2 6) ∧
    retryRequest NewPushProcessor (retriedReq req s psp dp 2 6) 0 s psp dp =
      some (12, retriedReq req s psp dp 3 12) ∧
    retryRequest NewPushProcessor (retriedReq req s psp dp 3 12) 0 s psp dp =
      none := by
  refine ⟨?_, ?_, ?_, ?_⟩ <;>
    simp [retryRequest, retriedReq, NewPushProcessor, init_backoff_time, h0, h1]

/-- C4 witness: the chain at the concrete request `req0`. -/
theorem c4_witness :
    req0.nrRetries = 0 ∧ req0.backoffTime = 0 ∧
    (retryRequest NewPushProcessor req0 0 "s1" psp0 dpA =
      some (3, retriedReq req0 "s1" psp0 dpA 1 3) ∧
    retryRequest NewPushProcessor (retriedReq req0 "s1" psp0 dpA 1 3) 0 "s1" psp0 dpA =
      some (6, retriedReq req0 "s1" psp0 dpA 2 6) ∧
    retryRequest NewPushProcessor (retriedReq req0 "s1" psp0 dpA 2 6) 0 "s1" psp0 dpA =
      some (12, retriedReq req0 "s1" psp0 dpA 3 12) ∧
    retryRequest NewPushProcessor (retriedReq req0 "s1" psp0 dpA 3 12) 0 "s1" psp0 dpA =
      none) :=
  ⟨rfl, rfl, c4_backoff_chain req0 "s1" psp0 dpA rfl rfl⟩

theorem backoffOf_ne_zero (req : Request) : backoffOf req ≠ 0 := by
  unfold backoffOf
  by_cases hc : req.nrRetries == 0 || req.backoffTime == 0
  · rw [if_pos hc]
    simp [init_backoff_time]
  · rw [if_neg hc]
    have hbt : req.backoffTime ≠ 0 := by
      intro h
      exact hc (by simp [h])
    exact mul_ne_zero hbt (by omega)

theorem backoffOf_double (r : Request) (h1 : r.nrRetries ≠ 0)
    (h2 : r.backoffTime ≠ 0) : backoffOf r = r.backoffTime * 2 := by
  unfold backoffOf
  rw [if_neg]
  simp [h1, h2]

theorem retryRequest_step (req : Request) (ra : Int) (s : String)
    (psp : PushServiceProvider) (dp : DeliveryPoint)
    (hn : req.nrRetries < NewPushProcessor.max_nr_retry) :
    retryRequest NewPushProcessor req ra s psp dp =
      some ((if ra > 0 then ra else backoffOf req),
        retriedReq req s psp dp (req.nrRetries + 1) (backoffOf req)) := by
  simp only [retryRequest, retriedReq, backoffOf, ge_iff_le,
    if_neg (Nat.not_le.mpr hn)]

/-- C5: for every retryable failure carrying a backend-suggested
retry-after value greater than 0, at any position in the chain still
within the retry budget, the scheduled retry waits the suggested value
instead of the computed backoff, while the retry request stored is
identical to the one stored without the override — its backoff is still
the computed (doubling-rule) value `b` — so a subsequent retryable
failure of that retry (with no override) waits and stores `b * 2`,
doubling from the last computed backoff, not from the override. -/
theorem c5_retry_after (req : Request) (s : String) (psp : PushServiceProvider)
    (dp : DeliveryPoint) (retryAfter : Int) (hra : retryAfter > 0)
    (hn : req.nrRetries < NewPushProcessor.max_nr_retry) :
    ∃ b : Int,
      retryRequest NewPushProcessor req 0 s psp dp =
        some (b, retriedReq req s psp dp (req.nrRetries + 1) b) ∧
      retryRequest NewPushProcessor req retryAfter s psp dp =
        some (retryAfter, retriedReq req s psp dp (req.nrRetries + 1) b) ∧
      b ≠ 0 ∧
      (req.nrRetries + 1 < NewPushProcessor.max_nr_retry →
        retryRequest NewPushProcessor
            (retriedReq req s psp dp (req.nrRetries + 1) b) 0 s psp dp =
          some (b * 2, retriedReq req s psp dp (req.nrRetries + 2) (b * 2))) := by
  refine ⟨backoffOf req, ?_, ?_, backoffOf_ne_zero req, ?_⟩
  · rw [retryRequest_step req 0 s psp dp hn, if_neg (by omega : ¬ (0 : Int) > 0)]
  · rw [retryRequest_step req retryAfter s psp dp hn, if_pos hra]
  · intro h2
    have hn2 : (retriedReq req s psp dp (req.nrRetries + 1)
        (backoffOf req)).nrRetries < NewPushProcessor.max_nr_retry := by
      simpa [retriedReq] using h2
    rw [retryRequest_step _ 0 s psp dp hn2, if_neg (by omega : ¬ (0 : Int) > 0)]
    have hb : backoffOf (retriedReq req s psp dp (req.nrRetries + 1)
        (backoffOf req)) = backoffOf req * 2 := by
      rw [backoffOf_double]
      · simp [retriedReq]
      · simp [retriedReq]
      · simpa [retriedReq] using backoffOf_ne_zero req
    rw [hb]
    simp [retriedReq]

/-- C5 witness: the override at a concrete mid-chain retry request
(retry count 1, stored backoff 3) with suggested retry-after 10: the
computed backoff is 6, the wait is 10, and the subsequent failure waits
and stores 12. -/
theorem c5_witness :
    (10 : Int) > 0 ∧
    (retriedReq req0 "s1" psp0 dpA 1 3).nrRetries <
      NewPushProcessor.max_nr_retry ∧
    (∃ b : Int,
      retryRequest NewPushProcessor (retriedReq req0 "s1" psp0 dpA 1 3)
          0 "s1" psp0 dpA =
        some (b, retriedReq (retriedReq req0 "s1" psp0 dpA 1 3) "s1" psp0 dpA
          ((retriedReq req0 "s1" psp0 dpA 1 3).nrRetries + 1) b) ∧
      retryRequest NewPushProcessor (retriedReq req0 "s1" psp0 dpA 1 3)
          10 "s1" psp0 dpA =
        some (10, retriedReq (retriedReq req0 "s1" psp0 dpA 1 3) "s1" psp0 dpA
          ((retriedReq req0 "s1" psp0 dpA 1 3).nrRetries + 1) b) ∧
      b ≠ 0 ∧
      ((retriedReq req0 "s1" psp0 dpA 1 3).nrRetries + 1 <
          NewPushProcessor.max_nr_retry →
        retryRequest NewPushProcessor
            (retriedReq (retriedReq req0 "s1" psp0 dpA 1 3) "s1" psp0 dpA
              ((retriedReq req0 "s1" psp0 dpA 1 3).nrRetries + 1) b)
            0 "s1" psp0 dpA =
          some (b * 2,
            retriedReq (retriedReq req0 "s1" psp0 dpA 1 3) "s1" psp0 dpA
              ((retriedReq req0 "s1" psp0 dpA 1 3).nrRetries + 2) (b * 2)))) :=
  ⟨by decide, by decide,
    c5_retry_after (retriedReq req0 "s1" psp0 dpA 1 3) "s1" psp0 dpA 10
      (by decide) (by decide)⟩

/-- C2 (amended): for every delivery attempt, the error is reported to the
caller via the response sink before a retry is scheduled or an unsubscribe
request is enqueued; the persistence of refreshed credentials, however,
happens during classification, before the error report, not after it. -/
theorem c2_report_before_async_recovery (pushFn : PushFn) (req : Request)
    (s : String) (psp : PushServiceProvider) (dp : DeliveryPoint) :
    asyncRecoveryPreceded false (pushToDeliveryPoint pushFn req s psp dp) = true ∧
    persistsFirst true (pushToDeliveryPoint pushFn req s psp dp) = true := by
  unfold pushToDeliveryPoint
  rcases hres : pushFn psp dp req.notification with ⟨id, err⟩
  cases err with
  | none =>
    simp [asyncRecoveryPreceded, persistsFirst, pushSucc,
      isScheduleRetryB, isEnqueueB, isRespondB, isPersistB]
  | some e0 =>
    cases e0 with
    | refreshData opsp odp other =>
      cases other with
      | none =>
        cases opsp <;> cases odp <;>
          simp [refreshData, asyncRecoveryPreceded, persistsFirst, pushSucc,
            isScheduleRetryB, isEnqueueB, isRespondB, isPersistB]
      | some e =>
        cases e <;> cases opsp <;> cases odp <;>
          simp [refreshData, asyncRecoveryPreceded, persistsFirst, pushSucc,
            pushFail, pushRetry,
            isScheduleRetryB, isEnqueueB, isRespondB, isPersistB]
    | retry ra =>
      simp [asyncRecoveryPreceded, persistsFirst, pushRetry,
        isScheduleRetryB, isEnqueueB, isRespondB, isPersistB]
    | unregistered =>
      simp [asyncRecoveryPreceded, persistsFirst,
        isScheduleRetryB, isEnqueueB, isRespondB, isPersistB]
    | other m =>
      simp [asyncRecoveryPreceded, persistsFirst, pushFail,
        isScheduleRetryB, isEnqueueB, isRespondB, isPersistB]

/-- C2 counterexample: a credential-refresh failure wrapping a retryable
error ends in a non-success outcome, yet the refreshed provider is
persisted before the error is responded: the trace violates the
respond-before-every-recovery-action ordering the claim states. -/
theorem c2_counterexample :
    (pushFnRefreshRetry psp0 dpA req0.notification).2 =
      some (PushError.refreshData (some psp0) none (some (PushError.retry 0))) ∧
    recoveryPreceded false
      (pushToDeliveryPoint pushFnRefreshRetry req0 "s1" psp0 dpA) = false :=
  ⟨rfl, rfl⟩

/-- C3 (amended): per delivery attempt the notification is recycled exactly
once on success (also when a credential refresh clears the error) and on a
terminal unclassified failure; it is not recycled while a retry is pending,
and it is not recycled at all on the permanently-unregistered path. -/
theorem c3_recycle_count (pushFn : PushFn) (req : Request) (s : String)
    (psp : PushServiceProvider) (dp : DeliveryPoint) :
    (pushToDeliveryPoint pushFn req s psp dp).countP isRecycleB =
      recycleSpec (pushFn psp dp req.notification) := by
  unfold pushToDeliveryPoint recycleSpec
  rcases hres : pushFn psp dp req.notification with ⟨id, err⟩
  cases err with
  | none => simp [pushSucc, isRecycleB]
  | some e0 =>
    cases e0 with
    | refreshData opsp odp other =>
      cases other with
      | none =>
        cases opsp <;> cases odp <;>
          simp [unwrapRefresh, refreshData, pushSucc, isRecycleB]
      | some e =>
        cases e <;> cases opsp <;> cases odp <;>
          simp [unwrapRefresh, refreshData, pushSucc, pushFail, pushRetry,
            isRecycleB, List.countP_cons, List.countP_append]
    | retry ra => simp [unwrapRefresh, pushRetry, isRecycleB]
    | unregistered => simp [unwrapRefresh, isRecycleB]
    | other m => simp [unwrapRefresh, pushFail, isRecycleB]

/-- C3 counterexample: on an unregistered-target outcome — a terminal
failure of the chain, with no retry scheduled — the notification is
recycled zero times, not the exactly-once the claim states. -/
theorem c3_counterexample :
    (pushFnUnregistered psp0 dpA req0.notification).2 =
      some PushError.unregistered ∧
    (pushToDeliveryPoint pushFnUnregistered req0 "s1" psp0 dpA).countP
      isRecycleB = 0 ∧
    (pushToDeliveryPoint pushFnUnregistered req0 "s1" psp0 dpA).countP
      isScheduleRetryB = 0 :=
  ⟨rfl, rfl, rfl⟩

theorem attemptsOf_ptdp (pushFn : PushFn) (req : Request) (s : String)
    (psp : PushServiceProvider) (dp : DeliveryPoint) :
    attemptsOf (pushToDeliveryPoint pushFn req s psp dp) = [PSPDPPair.mk psp dp] := by
  unfold pushToDeliveryPoint attemptsOf
  rcases hres : pushFn psp dp req.notification with ⟨id, err⟩
  cases err with
  | none => simp [pushSucc, attemptOf]
  | some e0 =>
    cases e0 with
    | refreshData opsp odp other =>
      cases other with
      | none =>
        cases opsp <;> cases odp <;> simp [refreshData, pushSucc, attemptOf]
      | some e =>
        cases e <;> cases opsp <;> cases odp <;>
          simp [refreshData, pushSucc, pushFail, pushRetry, attemptOf]
    | retry ra => simp [pushRetry, attemptOf]
    | unregistered => simp [attemptOf]
    | other m => simp [pushFail, attemptOf]

theorem pushLoop_attempts (pushFn : PushFn) (req : Request) (s : String) :
    ∀ (pairs : List PSPDPPair) (chked : List String) (seen : List String),
      (∀ x : String, x ∈ chked ↔ x ∈ seen) →
      attemptsOf (pushLoop pushFn req s pairs chked) = specDedupTargets seen pairs := by
  intro pairs
  induction pairs with
  | nil => intro chked seen hinv; simp [pushLoop, specDedupTargets, attemptsOf]
  | cons pr rest ih =>
    intro chked seen hinv
    by_cases hc : pr.dp.name ∈ chked
    · have hs : pr.dp.name ∈ seen := (hinv _).1 hc
      simp only [pushLoop, specDedupTargets, if_pos hc, if_pos hs]
      exact ih chked seen hinv
    · have hs : pr.dp.name ∉ seen := fun h => hc ((hinv _).2 h)
      simp only [pushLoop, specDedupTargets, if_neg hc, if_neg hs]
      have hinv2 : ∀ x : String,
          x ∈ chked ++ [pr.dp.name] ↔ x ∈ pr.dp.name :: seen := by
        intro x
        simp [List.mem_append, hinv x, or_comm]
      rw [attemptsOf, List.filterMap_append, ← attemptsOf, ← attemptsOf,
        attemptsOf_ptdp, ih (chked ++ [pr.dp.name]) (pr.dp.name :: seen) hinv2]
      rfl

/-- C6: when a subscriber's resolution returns a non-empty pair list, the
delivery attempts are exactly the pairs taken in returned order with any
pair skipped whose delivery-target identity equals that of an earlier
pair — that is, the attempt sequence equals the spec-side first-occurrence
dedup of the pair list. -/
theorem c6_dedup (pushFn : PushFn) (lookup : LookupFn) (req : Request) (s : String)
    (pairs : List PSPDPPair) (oerr : Option String)
    (hlk : lookup req.service s = (pairs, oerr)) (hne : pairs ≠ []) :
    attemptsOf (push pushFn lookup req s) = specDedupTargets [] pairs := by
  unfold push
  rw [hlk]
  have hlen : ¬ (pairs.length ≤ 0) := by
    cases pairs with
    | nil => exact absurd rfl hne
    | cons a l => simp
  cases oerr <;>
    simp only [if_neg hlen] <;>
    rw [attemptsOf, List.filterMap_append] <;>
    simp only [List.filterMap, attemptOf] <;>
    rw [← attemptsOf, pushLoop_attempts pushFn req s pairs [] [] (by intro x; rfl)] <;>
    simp [attemptOf]

/-- C6 witness: a subscriber resolving to target identities A, B, A, C gets
exactly three attempts, to A, B and C, in that order. -/
theorem c6_witness :
    lookupABAC req0.service "s1" =
      ([⟨psp0, dpA⟩, ⟨psp0, dpB⟩, ⟨psp1, dpA⟩, ⟨psp0, dpC⟩], none) ∧
    ([⟨psp0, dpA⟩, ⟨psp0, dpB⟩, ⟨psp1, dpA⟩, ⟨psp0, dpC⟩] : List PSPDPPair) ≠ [] ∧
    attemptsOf (push pushFnOk lookupABAC req0 "s1") =
      [⟨psp0, dpA⟩, ⟨psp0, dpB⟩, ⟨psp0, dpC⟩] :=
  ⟨rfl, by decide,
    (c6_dedup pushFnOk lookupABAC req0 "s1"
      [⟨psp0, dpA⟩, ⟨psp0, dpB⟩, ⟨psp1, dpA⟩, ⟨psp0, dpC⟩] none rfl
      (by decide)).trans (by decide)⟩

theorem ptdp_no_finish (pushFn : PushFn) (req : Request) (s : String)
    (psp : PushServiceProvider) (dp : DeliveryPoint) :
    (pushToDeliveryPoint pushFn req s psp dp).countP isFinishB = 0 := by
  unfold pushToDeliveryPoint
  rcases hres : pushFn psp dp req.notification with ⟨id, err⟩
  cases err with
  | none => simp [pushSucc, isFinishB]
  | some e0 =>
    cases e0 with
    | refreshData opsp odp other =>
      cases other with
      | none =>
        cases opsp <;> cases odp <;> simp [refreshData, pushSucc, isFinishB]
      | some e =>
        cases e <;> cases opsp <;> cases odp <;>
          simp [refreshData, pushSucc, pushFail, pushRetry, isFinishB]
    | retry ra => simp [pushRetry, isFinishB]
    | unregistered => simp [isFinishB]
    | other m => simp [pushFail, isFinishB]

theorem pushLoop_no_finish (pushFn : PushFn) (req : Request) (s : String) :
    ∀ (pairs : List PSPDPPair) (chked : List String),
      (pushLoop pushFn req s pairs chked).countP isFinishB = 0 := by
  intro pairs
  induction pairs with
  | nil => intro chked; simp [pushLoop]
  | cons pr rest ih =>
    intro chked
    by_cases hc : pr.dp.name ∈ chked <;>
      simp [pushLoop, hc, List.countP_append, ptdp_no_finish, ih]

theorem push_no_finish (pushFn : PushFn) (lookup : LookupFn) (req : Request)
    (s : String) : (push pushFn lookup req s).countP isFinishB = 0 := by
  unfold push
  rcases hres : lookup req.service s with ⟨pairs, oerr⟩
  cases oerr <;>
    by_cases hp : pairs.length ≤ 0 <;>
      simp [hp, List.countP_append, pushLoop_no_finish, isFinishB]

theorem pushBulk_no_finish (pushFn : PushFn) (lookup : LookupFn) (req : Request) :
    ∀ (subs : List String),
      (pushBulk pushFn lookup req subs).countP isFinishB = 0 := by
  intro subs
  induction subs with
  | nil => simp [pushBulk]
  | cons a rest ih =>
    simpa [pushBulk, List.countP_append, push_no_finish] using ih

theorem flatten_push_no_finish (pushFn : PushFn) (lookup : LookupFn) (req : Request) :
    ∀ (subs : List String),
      ((subs.map (push pushFn lookup req)).flatten).countP isFinishB = 0 := by
  intro subs
  induction subs with
  | nil => simp
  | cons a rest ih => simp [List.countP_append, push_no_finish, ih]

theorem flatten_pushBulk_no_finish (pushFn : PushFn) (lookup : LookupFn)
    (req : Request) :
    ∀ (bs : List (List String)),
      ((bs.map (pushBulk pushFn lookup req)).flatten).countP isFinishB = 0 := by
  intro bs
  induction bs with
  | nil => simp
  | cons b rest ih => simp [List.countP_append, pushBulk_no_finish, ih]

/-- C7: `Process` finalises the request exactly once on every path — the
direct single-target path, the worker-per-subscriber path, and the batched
path — whatever the backend and lookup return, and regardless of retries
(which are fire-and-forget and produce no `finish`). -/
theorem c7_finish_once (p : PushProcessor) (pushFn : PushFn) (lookup : LookupFn)
    (req : Request) : (Process p pushFn lookup req).countP isFinishB = 1 := by
  unfold Process
  rw [List.countP_append]
  have hfin : List.countP isFinishB [Event.finish] = 1 := by simp [isFinishB]
  rw [hfin]
  have h0 : ∀ (tr : List Event), tr.countP isFinishB = 0 →
      tr.countP isFinishB + 1 = 1 := by
    intro tr h
    rw [h]
  split
  · exact h0 _ (ptdp_no_finish _ _ _ _ _)
  · split
    · exact h0 _ (flatten_push_no_finish _ _ _ _)
    · exact h0 _ (flatten_pushBulk_no_finish _ _ _ _)

/-- C8: a delivery attempt classified as permanently unregistered (directly
or after a credential refresh unwraps to it) enqueues exactly one
unsubscribe request on the handoff channel — same request id, single-element
subscriber list, `ACTION_UNSUBSCRIBE`, the given delivery target — and
schedules no retry. -/
theorem c8_unregistered_unsub (pushFn : PushFn) (req : Request) (s : String)
    (psp : PushServiceProvider) (dp : DeliveryPoint) (e0 : PushError)
    (h : (pushFn psp dp req.notification).2 = some e0)
    (hu : unwrapRefresh e0 = some PushError.unregistered) :
    (pushToDeliveryPoint pushFn req s psp dp).filterMap enqueuedOf =
      [unsubscribe req s dp] ∧
    (pushToDeliveryPoint pushFn req s psp dp).countP isScheduleRetryB = 0 ∧
    (unsubscribe req s dp).id = req.id ∧
    (unsubscribe req s dp).action = ACTION_UNSUBSCRIBE ∧
    (unsubscribe req s dp).subscribers = [s] ∧
    (unsubscribe req s dp).dp = some dp := by
  refine ⟨?_, ?_, rfl, rfl, rfl, rfl⟩ <;>
  · unfold pushToDeliveryPoint
    rcases hres : pushFn psp dp req.notification with ⟨id, err⟩
    rw [hres] at h
    simp only [] at h
    subst h
    cases e0 with
    | refreshData opsp odp other =>
      have hother : other = some PushError.unregistered := by
        simpa [unwrapRefresh] using hu
      subst hother
      cases opsp <;> cases odp <;>
        simp [refreshData, enqueuedOf, isScheduleRetryB]
    | retry ra => simp [unwrapRefresh] at hu
    | unregistered => simp [enqueuedOf, isScheduleRetryB]
    | other m => simp [unwrapRefresh] at hu

/-- C8 witness: the unregistered outcome at concrete inputs. -/
theorem c8_witness :
    (pushFnUnregistered psp0 dpB req0.notification).2 =
      some PushError.unregistered ∧
    unwrapRefresh PushError.unregistered = some PushError.unregistered ∧
    ((pushToDeliveryPoint pushFnUnregistered req0 "s1" psp0 dpB).filterMap
        enqueuedOf = [unsubscribe req0 "s1" dpB] ∧
    (pushToDeliveryPoint pushFnUnregistered req0 "s1" psp0 dpB).countP
      isScheduleRetryB = 0 ∧
    (unsubscribe req0 "s1" dpB).id = req0.id ∧
    (unsubscribe req0 "s1" dpB).action = ACTION_UNSUBSCRIBE ∧
    (unsubscribe req0 "s1" dpB).subscribers = ["s1"] ∧
    (unsubscribe req0 "s1" dpB).dp = some dpB) :=
  ⟨rfl, rfl,
    c8_unregistered_unsub pushFnUnregistered req0 "s1" psp0 dpB
      PushError.unregistered rfl rfl⟩

/-- C9: a delivery attempt whose error carries refreshable credential data
with no remaining underlying error takes the success path: any present
refreshed provider and/or target is persisted, the trace is exactly the
attempt, the persists and the success-and-recycle tail, and no error is
responded to the caller. -/
theorem c9_refresh_clears (pushFn : PushFn) (req : Request) (s : String)
    (psp : PushServiceProvider) (dp : DeliveryPoint)
    (opsp : Option PushServiceProvider) (odp : Option DeliveryPoint)
    (h : (pushFn psp dp req.notification).2 =
      some (PushError.refreshData opsp odp none)) :
    pushToDeliveryPoint pushFn req s psp dp =
      Event.attemptMark s psp dp ::
        ((refreshData opsp odp none).1 ++
          pushSucc req (pushFn psp dp req.notification).1) ∧
    (pushToDeliveryPoint pushFn req s psp dp).countP isRespondB = 0 ∧
    (∀ q, opsp = some q →
      Event.persistPSP q ∈ pushToDeliveryPoint pushFn req s psp dp) ∧
    (∀ d, odp = some d →
      Event.persistDP d ∈ pushToDeliveryPoint pushFn req s psp dp) ∧
    Event.succ (pushFn psp dp req.notification).1 ∈
      pushToDeliveryPoint pushFn req s psp dp := by
  refine ⟨?_, ?_, ?_, ?_, ?_⟩ <;>
  · unfold pushToDeliveryPoint
    rcases hres : pushFn psp dp req.notification with ⟨id, err⟩
    rw [hres] at h
    simp only [] at h
    subst h
    cases opsp <;> cases odp <;>
      simp [refreshData, pushSucc, isRespondB]

/-- C9 witness: a refresh carrying both a provider and a target and no
remaining error, at concrete inputs. -/
theorem c9_witness :
    (pushFnRefreshClear psp1 dpC req0.notification).2 =
      some (PushError.refreshData (some psp0) (some dpA) none) ∧
    (pushToDeliveryPoint pushFnRefreshClear req0 "s1" psp1 dpC =
      Event.attemptMark "s1" psp1 dpC ::
        ((refreshData (some psp0) (some dpA) none).1 ++
          pushSucc req0 (pushFnRefreshClear psp1 dpC req0.notification).1) ∧
    (pushToDeliveryPoint pushFnRefreshClear req0 "s1" psp1 dpC).countP
      isRespondB = 0 ∧
    (∀ q, (some psp0 : Option PushServiceProvider) = some q →
      Event.persistPSP q ∈ pushToDeliveryPoint pushFnRefreshClear req0 "s1" psp1 dpC) ∧
    (∀ d, (some dpA : Option DeliveryPoint) = some d →
      Event.persistDP d ∈ pushToDeliveryPoint pushFnRefreshClear req0 "s1" psp1 dpC) ∧
    Event.succ (pushFnRefreshClear psp1 dpC req0.notification).1 ∈
      pushToDeliveryPoint pushFnRefreshClear req0 "s1" psp1 dpC) :=
  ⟨rfl, c9_refresh_clears pushFnRefreshClear req0 "s1" psp1 dpC
    (some psp0) (some dpA) rfl⟩

/-- C10: a subscriber whose lookup returns a storage error together with an
empty pair list gets two responds — the storage error first, then the
no-device error — and no delivery attempt, because the storage-error branch
of `push` does not return before the empty-result check. -/
theorem c10_storage_error_two_responds (pushFn : PushFn) (lookup : LookupFn)
    (req : Request) (s : String) (emsg : String)
    (h : lookup req.service s = ([], some emsg)) :
    push pushFn lookup req s =
      [Event.respond (RespondError.storage emsg),
       Event.respond (RespondError.noDevice s)] ∧
    attemptsOf (push pushFn lookup req s) = [] := by
  constructor <;>
    · unfold push
      rw [h]
      simp [attemptsOf, attemptOf]

/-- C10 witness: the failing lookup at concrete inputs. -/
theorem c10_witness :
    lookupEmptyErr req0.service "s1" = ([], some "dberr") ∧
    (push pushFnOk lookupEmptyErr req0 "s1" =
      [Event.respond (RespondError.storage "dberr"),
       Event.respond (RespondError.noDevice "s1")] ∧
    attemptsOf (push pushFnOk lookupEmptyErr req0 "s1") = []) :=
  ⟨rfl, c10_storage_error_two_responds pushFnOk lookupEmptyErr req0 "s1" "dberr" rfl⟩
